import Mathlib

/-!
Verification of the TestImageJIVA image upload/edit/convert page.

The whole program lives in one client component.  This development shallowly
embeds its pure logic:

* a `JsonVal` type for the loosely typed JSON values the two APIs exchange,
  together with the JavaScript primitives the component applies to them
  (truthiness, `typeof x === "object"`, the `in` operator, property access,
  `String(...)` coercion, `JSON.stringify`);
* the Response Presenter extraction functions `extractConvertUrl`,
  `extractConvertTables`, `extractConvertMetadata`;
* the error-message derivations of `handleSubmit` (upload branch) and
  `submitConvertImage` (convert branch);
* the orchestration of `handleSubmit` after the upload response arrives,
  recording the convert requests that are issued;
* the canvas pipeline of `processImageForUpload` (crop scaling, rotation
  normalization, canvas dimensions, composite filter) with JavaScript numbers
  modelled as rationals;
* the session state touched by `handleReset` / `resetEditorState`.
-/

/-- Parsed JSON values.  JavaScript numbers are modelled as integers (every
number appearing in the claims is integral). -/
inductive JsonVal where
  | null
  | bool (b : Bool)
  | num (n : Int)
  | str (s : String)
  | arr (elems : List JsonVal)
  | obj (fields : List (String × JsonVal))

/-- JavaScript truthiness of a parsed JSON value (`!v` is `!truthy v`). -/
def truthy : JsonVal → Bool
  | .null => false
  | .bool b => b
  | .num n => n != 0
  | .str s => s != ""
  | .arr _ => true
  | .obj _ => true

/-- Whether `typeof v === "object"` holds: true for null, arrays and objects. -/
def typeofObject : JsonVal → Bool
  | .null => true
  | .arr _ => true
  | .obj _ => true
  | _ => false

/-- Property access `v[k]` for a parsed JSON value, `none` meaning
`undefined`.  Arrays and primitives have no string-keyed properties; access on
`null` is not covered here (callers model the `TypeError` separately). -/
def jsGet : JsonVal → String → Option JsonVal
  | .obj fields, k => fields.lookup k
  | _, _ => none

/-- The `in` operator: `k in v` for an object `v`. -/
def jsMember (v : JsonVal) (k : String) : Bool :=
  (jsGet v k).isSome

/-- Recognizes the JSON `null` value. -/
def isNullJson : JsonVal → Bool
  | .null => true
  | _ => false

/-- Values that are non-null and of object type (arrays included), the
premise under which the spec speaks of a "non-null object". -/
def nonNullObject : JsonVal → Bool
  | .arr _ => true
  | .obj _ => true
  | _ => false

mutual

/-- JavaScript `String(v)` coercion of a parsed JSON value. -/
def jsToString : JsonVal → String
  | .null => "null"
  | .bool b => cond b "true" "false"
  | .num n => toString n
  | .str s => s
  | .arr elems => jsToStringElems elems
  | .obj _ => "[object Object]"

/-- Rendering of array elements under `Array.prototype.toString` (join with
commas, `null` elements becoming empty). -/
def jsToStringElems : List JsonVal → String
  | [] => ""
  | [.null] => ""
  | [v] => jsToString v
  | .null :: rest => "," ++ jsToStringElems rest
  | v :: rest => jsToString v ++ "," ++ jsToStringElems rest

end

/-- Escape of a single character inside a JSON string literal, as performed by
`JSON.stringify`. -/
def jsonEscapeChar (c : Char) : String :=
  if c = '"' then "\\\""
  else if c = '\\' then "\\\\"
  else if c = '\u0008' then "\\b"
  else if c = '\u000c' then "\\f"
  else if c = '\n' then "\\n"
  else if c = '\r' then "\\r"
  else if c = '\t' then "\\t"
  else if c.toNat < 32 then
    "\\u00" ++ String.singleton (Nat.digitChar (c.toNat / 16)) ++
      String.singleton (Nat.digitChar (c.toNat % 16))
  else String.singleton c

/-- Escape of a whole string for a JSON string literal. -/
def jsonEscape (s : String) : String :=
  String.join (s.toList.map jsonEscapeChar)

mutual

/-- JavaScript `JSON.stringify(v)` on a parsed JSON value. -/
def jsonStringify : JsonVal → String
  | .null => "null"
  | .bool b => cond b "true" "false"
  | .num n => toString n
  | .str s => "\"" ++ jsonEscape s ++ "\""
  | .arr elems => "[" ++ jsonStringifyElems elems ++ "]"
  | .obj fields => "\x7b" ++ jsonStringifyFields fields ++ "\x7d"

/-- Comma-separated serialization of array elements. -/
def jsonStringifyElems : List JsonVal → String
  | [] => ""
  | [v] => jsonStringify v
  | v :: rest => jsonStringify v ++ "," ++ jsonStringifyElems rest

/-- Comma-separated serialization of object fields. -/
def jsonStringifyFields : List (String × JsonVal) → String
  | [] => ""
  | [(k, v)] => "\"" ++ jsonEscape k ++ "\":" ++ jsonStringify v
  | (k, v) :: rest =>
      "\"" ++ jsonEscape k ++ "\":" ++ jsonStringify v ++ "," ++
        jsonStringifyFields rest

end

/-
Response Presenter (`extractConvertUrl`, `extractConvertTables`,
`extractConvertMetadata`).  The argument is `Option JsonVal`: `none` stands
for the JavaScript `null` argument of type `ConvertResponse | null`, `some v`
for a parsed JSON value.
-/

/-- Tables extracted by the presenter.  The source casts `columns` and `rows`
without validating the element types, so both stay lists of JSON values. -/
structure ConvertTable where
  columns : List JsonVal
  rows : List JsonVal

/-- Embedding of `extractConvertUrl` (source lines 27-34): guard
`!response || typeof response !== "object"`, then return `response.url` when
it is a string. -/
def extractConvertUrl (response : Option JsonVal) : Option String :=
  match response with
  | none => none
  | some r =>
    if !truthy r || !typeofObject r then none
    else
      match jsGet r "url" with
      | some (.str s) => some s
      | _ => none

/-- Embedding of the per-entry callback inside `extractConvertTables`
(source lines 57-70): an entry maps to `null` unless it is a truthy value of
object type whose `columns` and `rows` properties are both arrays. -/
def convertTableEntry (table : JsonVal) : Option ConvertTable :=
  if !typeofObject table || !truthy table then none
  else
    match jsGet table "columns", jsGet table "rows" with
    | some (.arr cs), some (.arr rs) => some (ConvertTable.mk cs rs)
    | _, _ => none

/-- Embedding of `extractConvertTables` (source lines 36-72): guard chain on
`response` and `response.data`, then map each entry of
`data.extracted_tables` to a table or `null` and filter out the `null`s. -/
def extractConvertTables (response : Option JsonVal) : List ConvertTable :=
  match response with
  | none => []
  | some r =>
    if !truthy r || !typeofObject r || !jsMember r "data" then []
    else
      let d := (jsGet r "data").getD .null
      if !typeofObject d || !truthy d then []
      else
        match jsGet d "extracted_tables" with
        | some (.arr tables) => (tables.map convertTableEntry).reduceOption
        | _ => []

/-- Embedding of `extractConvertMetadata` (source lines 74-93): guard chain on
`response` and `response.data`, then return `data.metadata` when it is a
truthy value of object type. -/
def extractConvertMetadata (response : Option JsonVal) : Option JsonVal :=
  match response with
  | none => none
  | some r =>
    if !truthy r || !typeofObject r || !jsMember r "data" then none
    else
      let d := (jsGet r "data").getD .null
      if !typeofObject d || !truthy d then none
      else
        match jsGet d "metadata" with
        | some m =>
            if !truthy m || !typeofObject m then none else some m
        | none => none

/-
Specification-side presenter functions, written from the claim text rather
than from the source, for the refinement theorems.
-/

/-- Modelled from the spec wording for a single table entry: kept exactly when
the entry is a non-null object whose `columns` and `rows` fields are both
arrays. -/
def tableOfJson (v : JsonVal) : Option ConvertTable :=
  match v with
  | .obj _ =>
    match jsGet v "columns", jsGet v "rows" with
    | some (.arr cs), some (.arr rs) => some (ConvertTable.mk cs rs)
    | _, _ => none
  | .arr _ => none
  | _ => none

/-- Modelled from the spec wording of `extractUrl`: the top-level `url` field
exactly when the response is a non-null object and `url` is of string type. -/
def extractUrlSpec (response : Option JsonVal) : Option String :=
  match response with
  | none => none
  | some r =>
    if nonNullObject r then
      match jsGet r "url" with
      | some (.str s) => some s
      | _ => none
    else none

/-- Modelled from the spec wording of `extractTables`: the entries of
`data.extracted_tables` that qualify under `tableOfJson`, in order; any
structural mismatch yields the empty list. -/
def extractTablesSpec (response : Option JsonVal) : List ConvertTable :=
  match response with
  | none => []
  | some r =>
    match jsGet r "data" with
    | some d =>
      if nonNullObject d then
        match jsGet d "extracted_tables" with
        | some (.arr tables) => tables.filterMap tableOfJson
        | _ => []
      else []
    | none => []

/-- Modelled from the spec wording of `extractMetadata`: `data.metadata`
exactly when the response and `data` are non-null objects and `metadata` is a
non-null object. -/
def extractMetadataSpec (response : Option JsonVal) : Option JsonVal :=
  match response with
  | none => none
  | some r =>
    if nonNullObject r then
      match jsGet r "data" with
      | some d =>
        if nonNullObject d then
          match jsGet d "metadata" with
          | some m => if nonNullObject m then some m else none
          | none => none
        else none
      | none => none
    else none

/-- Truthy values of object type are exactly the non-null objects. -/
theorem truthy_typeofObject_iff (v : JsonVal) :
    (truthy v && typeofObject v) = nonNullObject v := by
  cases v <;> simp [truthy, typeofObject, nonNullObject]

/-- Reducing a mapped list of options equals filterMap. -/
theorem reduceOption_map_eq_filterMap {α β : Type} (f : α → Option β)
    (l : List α) : (l.map f).reduceOption = l.filterMap f := by
  simp [List.reduceOption, List.filterMap_map]


/-- The per-entry callback of `extractConvertTables` agrees with the
spec-side `tableOfJson`. -/
theorem convertTableEntry_eq_tableOfJson (table : JsonVal) :
    convertTableEntry table = tableOfJson table := by
  cases table <;> simp [convertTableEntry, typeofObject, truthy, tableOfJson, jsGet]

/-- C3.  For every input, `extractConvertTables` returns exactly the entries
of `data.extracted_tables` that are non-null objects whose `columns` and
`rows` fields are both arrays, in their original order; every other entry is
dropped, the function is total (never throws), and any structural mismatch
yields the empty list, as captured by the spec-side `extractTablesSpec`. -/
theorem extractConvertTables_eq_spec (response : Option JsonVal) :
    extractConvertTables response = extractTablesSpec response := by
  cases response with
  | none => rfl
  | some r =>
    cases r with
    | null => rfl
    | bool b => cases b <;> rfl
    | num n => simp [extractConvertTables, extractTablesSpec, truthy,
        typeofObject, jsGet]
    | str s => simp [extractConvertTables, extractTablesSpec, truthy,
        typeofObject, jsGet]
    | arr xs => rfl
    | obj fields =>
      simp only [extractConvertTables, extractTablesSpec, truthy, typeofObject,
        jsMember, jsGet]
      cases h : fields.lookup "data" with
      | none => simp [h]
      | some d =>
        cases d <;>
          simp [h, typeofObject, truthy, nonNullObject, jsGet]
        case obj dfields =>
          cases h2 : dfields.lookup "extracted_tables" with
          | none => simp [h2]
          | some ts =>
            cases ts with
            | arr tables =>
              simp only [h2]
              rw [reduceOption_map_eq_filterMap]
              exact List.filterMap_congr
                (fun t _ => convertTableEntry_eq_tableOfJson t)
            | null => simp [h2]
            | bool b => simp [h2]
            | num n => simp [h2]
            | str s => simp [h2]
            | obj fs2 => simp [h2]

/-- C7.  For every input, `extractConvertUrl` returns the top-level `url`
field exactly when the response is a non-null object with a string `url`
(else `null`), and `extractConvertMetadata` returns `data.metadata` exactly
when the response and `data` are non-null objects and `metadata` is a
non-null object (else `null`); both are total, so neither throws. -/
theorem extract_url_metadata_eq_spec (response : Option JsonVal) :
    extractConvertUrl response = extractUrlSpec response ∧
      extractConvertMetadata response = extractMetadataSpec response := by
  constructor
  · cases response with
    | none => rfl
    | some r => cases r <;> simp [extractConvertUrl, extractUrlSpec, truthy,
        typeofObject, nonNullObject, jsGet]
  · cases response with
    | none => rfl
    | some r =>
      cases r with
      | null => rfl
      | bool b => cases b <;> rfl
      | num n => simp [extractConvertMetadata, extractMetadataSpec, truthy,
          typeofObject, nonNullObject, jsGet]
      | str s => simp [extractConvertMetadata, extractMetadataSpec, truthy,
          typeofObject, nonNullObject, jsGet]
      | arr xs => rfl
      | obj fields =>
        simp only [extractConvertMetadata, extractMetadataSpec, truthy,
          typeofObject, jsMember, jsGet, nonNullObject]
        cases h : fields.lookup "data" with
        | none => simp [h]
        | some d =>
          cases d <;>
            simp [h, typeofObject, truthy, nonNullObject, jsGet]
          case obj dfields =>
            cases h2 : dfields.lookup "metadata" with
            | none => simp [h2]
            | some m => cases m <;> simp [h2, truthy, typeofObject, nonNullObject]

/-
Upload error-message derivation (`handleSubmit`, source lines 306-315):

  const errorData = await response.json().catch(() => ({}));
  const errorMessage = errorData.detail
    ? Array.isArray(errorData.detail)
      ? errorData.detail.map((d) => d.msg || JSON.stringify(d)).join(comma-space)
      : typeof errorData.detail === string
        ? errorData.detail
        : JSON.stringify(errorData.detail)
    : `API error: ...`;

`body = none` models an unparseable body (the catch turns it into an empty
object).  A body that parses to JSON `null` makes `errorData.detail` raise a
TypeError, and a `null` entry inside a `detail` array makes `d.msg` raise one;
both are modelled by `JsResult.typeError` since the exception text is
engine-specific.
-/

/-- Result of a JavaScript expression: a string, or an engine-raised
TypeError whose message text is engine-specific. -/
inductive JsResult where
  | ok (s : String)
  | typeError
deriving DecidableEq

/-- Embedding of the sub-error reducer `(d) => d.msg || JSON.stringify(d)`
(source line 310), `none` marking the TypeError raised on a `null` entry.
The `join` coercion `String(...)` is applied to a kept `msg` value. -/
def subErrorText (d : JsonVal) : Option String :=
  match d with
  | .null => none
  | e =>
    match jsGet e "msg" with
    | some m => if truthy m then some (jsToString m) else some (jsonStringify e)
    | none => some (jsonStringify e)

/-- The generic upload failure message `API error: <status> <statusText>`. -/
def uploadGenericMessage (status : Nat) (statusText : String) : String :=
  "API error: " ++ toString status ++ " " ++ statusText

/-- Embedding of the upload error-message derivation (source lines 306-315). -/
def uploadErrorMessage (body : Option JsonVal) (status : Nat)
    (statusText : String) : JsResult :=
  let errorData := body.getD (JsonVal.obj [])
  match errorData with
  | .null => .typeError
  | ed =>
    match jsGet ed "detail" with
    | some dtl =>
      if truthy dtl then
        match dtl with
        | .arr subErrors =>
          if subErrors.any isNullJson then .typeError
          else
            .ok (String.intercalate ", "
              (subErrors.map (fun d => (subErrorText d).getD "")))
        | .str s => .ok s
        | _ => .ok (jsonStringify dtl)
      else .ok (uploadGenericMessage status statusText)
    | none => .ok (uploadGenericMessage status statusText)

/-- C4 counterexample.  The claim says a `detail` value that is neither an
array nor a string yields its JSON stringification, so for body
`{detail: false}` the message would be `"false"`; the code tests
`errorData.detail` for truthiness first, so the falsy `detail: false` falls
through to the generic status message instead. -/
theorem uploadErrorMessage_falsy_detail_counterexample :
    uploadErrorMessage (some (.obj [("detail", .bool false)])) 413
        "Request Entity Too Large" =
      .ok "API error: 413 Request Entity Too Large" ∧
    jsonStringify (.bool false) = "false" ∧
    JsResult.ok "API error: 413 Request Entity Too Large" ≠
      JsResult.ok "false" := by
  refine ⟨rfl, rfl, ?_⟩
  decide

/-- C4 (amended).  With `body` unparseable, or `detail` absent or falsy, the
message is the generic `API error: <status> <statusText>`; a truthy string
`detail` is used as is; a truthy non-array non-string `detail` is JSON
stringified; a truthy array `detail` without null entries maps each sub-error
to its truthy `msg` (string-coerced) or its JSON stringification and joins
with a comma; a JSON `null` body, or a `null` entry of a `detail` array,
raises a TypeError instead.  In particular body
`{detail:[{msg:"too large"}]}` yields exactly `"too large"`. -/
theorem uploadErrorMessage_cases (status : Nat) (statusText : String) :
    (uploadErrorMessage none status statusText =
      .ok (uploadGenericMessage status statusText)) ∧
    (uploadErrorMessage (some .null) status statusText = .typeError) ∧
    (∀ b : JsonVal, ¬ isNullJson b → jsGet b "detail" = none →
      uploadErrorMessage (some b) status statusText =
        .ok (uploadGenericMessage status statusText)) ∧
    (∀ b d : JsonVal, jsGet b "detail" = some d → truthy d = false →
      uploadErrorMessage (some b) status statusText =
        .ok (uploadGenericMessage status statusText)) ∧
    (∀ (b : JsonVal) (s : String), jsGet b "detail" = some (.str s) → s ≠ "" →
      uploadErrorMessage (some b) status statusText = .ok s) ∧
    (∀ b d : JsonVal, jsGet b "detail" = some d → truthy d = true →
      (∀ xs, d ≠ .arr xs) → (∀ s, d ≠ .str s) →
      uploadErrorMessage (some b) status statusText =
        .ok (jsonStringify d)) ∧
    (∀ (b : JsonVal) (xs : List JsonVal), jsGet b "detail" = some (.arr xs) →
      xs.any isNullJson = false →
      uploadErrorMessage (some b) status statusText =
        .ok (String.intercalate ", "
          (xs.map (fun d => (subErrorText d).getD "")))) ∧
    (∀ (b : JsonVal) (xs : List JsonVal), jsGet b "detail" = some (.arr xs) →
      xs.any isNullJson = true →
      uploadErrorMessage (some b) status statusText = .typeError) ∧
    (uploadErrorMessage
        (some (.obj [("detail", .arr [.obj [("msg", .str "too large")]])]))
        status statusText = .ok "too large") := by
  refine ⟨rfl, rfl, ?_, ?_, ?_, ?_, ?_, ?_, rfl⟩
  · intro b hb hdet
    cases b <;> simp_all [uploadErrorMessage, isNullJson]
  · intro b d hdet htr
    cases b <;> simp_all [uploadErrorMessage, jsGet]
  · intro b s hdet hs
    cases b <;> simp_all [uploadErrorMessage, jsGet, truthy]
  · intro b d hdet htr harr hstr
    rcases d with _ | bb | nn | ss | xs | fs
    · simp [truthy] at htr
    · cases b <;> simp_all [uploadErrorMessage, jsGet]
    · cases b <;> simp_all [uploadErrorMessage, jsGet]
    · exact absurd rfl (hstr ss)
    · exact absurd rfl (harr xs)
    · cases b <;> simp_all [uploadErrorMessage, jsGet]
  · intro b xs hdet hnull
    cases b <;> simp_all [uploadErrorMessage, jsGet, truthy]
  · intro b xs hdet hnull
    cases b <;> simp_all [uploadErrorMessage, jsGet, truthy]

/-- C4 witness for `uploadErrorMessage_cases`: concrete inputs discharging the
hypotheses of its conditional conjuncts. -/
theorem uploadErrorMessage_cases_witness :
    uploadErrorMessage (some (.obj [("detail", .str "file too big")])) 400
        "Bad Request" = .ok "file too big" ∧
    uploadErrorMessage (some (.obj [("detail", .num 7)])) 400 "Bad Request" =
      .ok "7" ∧
    uploadErrorMessage (some (.obj [("other", .str "x")])) 500 "Server Error" =
      .ok (uploadGenericMessage 500 "Server Error") := by
  refine ⟨?_, ?_, ?_⟩
  · exact (uploadErrorMessage_cases 400 "Bad Request").2.2.2.2.1
      (.obj [("detail", .str "file too big")]) "file too big" rfl (by decide)
  · have h := (uploadErrorMessage_cases 400 "Bad Request").2.2.2.2.2.1
      (.obj [("detail", .num 7)]) (.num 7) rfl (by decide)
      (fun xs => by simp) (fun s => by simp)
    exact h.trans rfl
  · exact (uploadErrorMessage_cases 500 "Server Error").2.2.1
      (.obj [("other", .str "x")]) (by decide) rfl

/-
Upload Orchestrator.  Environment-derived configuration (source lines
131-144) and the `handleSubmit` / `submitConvertImage` pair (source lines
159-189 and 285-330), modelled from the point where the upload response has
arrived.  HTTP responses are given as data: `ok`/`status`/`statusText` plus
the JSON body (`none` when the body does not parse).
-/

/-- Environment variables read by the component, `none` when unset. -/
structure ConvertEnv where
  convertApiUrl : Option String
  convertApiToken : Option String
  entityType : Option String
  entityId : Option String
  classId : Option String
  schoolId : Option String
  academicYear : Option String

/-- JavaScript `env || default`: the default is used when the variable is
unset or empty (falsy). -/
def jsOrDefault (v : Option String) (d : String) : String :=
  match v with
  | none => d
  | some s => if s == "" then d else s

/-- Configuration values as the component derives them. -/
structure ConvertConfig where
  convertApiUrl : String
  convertApiToken : String
  entityType : String
  entityId : String
  classId : String
  schoolId : String
  academicYear : String

/-- Embedding of the configuration derivation (source lines 131-144). -/
def deriveConvertConfig (env : ConvertEnv) : ConvertConfig :=
  { convertApiUrl := jsOrDefault env.convertApiUrl
      "http://localhost:3000/api/v1/growth-card/convert-image",
    convertApiToken := jsOrDefault env.convertApiToken "",
    entityType := jsOrDefault env.entityType "dkn_report",
    entityId := jsOrDefault env.entityId "0",
    classId := jsOrDefault env.classId "132",
    schoolId := jsOrDefault env.schoolId "215",
    academicYear := jsOrDefault env.academicYear "2025-2026" }

/-- An HTTP response as the orchestrator observes it. -/
structure HttpResponse where
  ok : Bool
  status : Nat
  statusText : String
  body : Option JsonVal

/-- A POST request to the Convert API: target URL, multipart form fields in
order, and the Authorization header. -/
structure ConvertRequest where
  url : String
  formData : List (String × String)
  authorization : String

/-- An error recorded in session state: a message string, or an engine-raised
exception (TypeError/SyntaxError) whose text is engine-specific. -/
inductive SessionError where
  | msg (s : String)
  | jsError
deriving DecidableEq

/-- End-of-submit session state: the recorded upload result, the recorded
convert result, the error message, and the list of Convert requests issued. -/
structure SubmitOutcome where
  apiResponse : Option JsonVal
  convertResponse : Option JsonVal
  error : Option SessionError
  convertCalls : List ConvertRequest

/-- Optional chaining `v?.k`: `undefined` on `null`, property access
otherwise. -/
def optChain (v : JsonVal) (k : String) : Option JsonVal :=
  match v with
  | .null => none
  | _ => jsGet v k

/-- Truthiness of a possibly-undefined value. -/
def truthyOpt : Option JsonVal → Bool
  | some v => truthy v
  | none => false

/-- Embedding of the convert error-message derivation (source lines 179-186):
`convertError?.message || convertError?.detail || generic`, the winner
string-coerced by the `Error` constructor. -/
def convertErrorMessage (body : Option JsonVal) (status : Nat)
    (statusText : String) : String :=
  let ce := body.getD (JsonVal.obj [])
  if truthyOpt (optChain ce "message") then
    jsToString ((optChain ce "message").getD .null)
  else if truthyOpt (optChain ce "detail") then
    jsToString ((optChain ce "detail").getD .null)
  else "Convert API error: " ++ toString status ++ " " ++ statusText

/-- The configuration-error message thrown by `submitConvertImage`. -/
def convertConfigMessage : String :=
  "Convert API configuration missing. Check environment variables."

/-- The request `submitConvertImage` builds (source lines 163-177). -/
def buildConvertRequest (cfg : ConvertConfig) (imageUrl : String) :
    ConvertRequest :=
  { url := cfg.convertApiUrl,
    formData := [("image_url", imageUrl), ("entityType", cfg.entityType),
      ("entityId", cfg.entityId), ("class_id", cfg.classId),
      ("school_id", cfg.schoolId), ("academic_year", cfg.academicYear)],
    authorization := "Bearer " ++ cfg.convertApiToken }

/-- Embedding of `submitConvertImage` (source lines 159-189): the config
guard runs before any request is issued; on a non-2xx response the derived
message is thrown; an ok response returns its parsed body (an unparseable ok
body raises a SyntaxError).  The first component lists the requests issued. -/
def submitConvertImage (cfg : ConvertConfig) (imageUrl : String)
    (resp : HttpResponse) : List ConvertRequest × Except SessionError JsonVal :=
  if cfg.convertApiUrl == "" || cfg.convertApiToken == "" then
    ([], .error (.msg convertConfigMessage))
  else
    let req := buildConvertRequest cfg imageUrl
    if !resp.ok then
      ([req], .error (.msg
        (convertErrorMessage resp.body resp.status resp.statusText)))
    else
      match resp.body with
      | none => ([req], .error .jsError)
      | some b => ([req], .ok b)

/-- Embedding of `handleSubmit` from the upload response on (source lines
306-330).  A non-ok upload throws the derived message; an ok response records
its parsed body and, when `data.url` is truthy, forwards it (string-coerced)
to `submitConvertImage`; the surrounding catch turns any thrown error into
the session error message. -/
def handleSubmitAfterUpload (cfg : ConvertConfig)
    (uploadResp convertResp : HttpResponse) : SubmitOutcome :=
  if !uploadResp.ok then
    { apiResponse := none, convertResponse := none,
      error := some (match uploadErrorMessage uploadResp.body uploadResp.status
          uploadResp.statusText with
        | .ok s => .msg s
        | .typeError => .jsError),
      convertCalls := [] }
  else
    match uploadResp.body with
    | none =>
      { apiResponse := none, convertResponse := none, error := some .jsError,
        convertCalls := [] }
    | some data =>
      match data with
      | .null =>
        { apiResponse := some .null, convertResponse := none,
          error := some .jsError, convertCalls := [] }
      | d =>
        match jsGet d "url" with
        | some u =>
          if truthy u then
            match submitConvertImage cfg (jsToString u) convertResp with
            | (calls, .ok b) =>
              { apiResponse := some d, convertResponse := some b,
                error := none, convertCalls := calls }
            | (calls, .error e) =>
              { apiResponse := some d, convertResponse := none,
                error := some e, convertCalls := calls }
          else
            { apiResponse := some d, convertResponse := none, error := none,
              convertCalls := [] }
        | none =>
          { apiResponse := some d, convertResponse := none, error := none,
            convertCalls := [] }

/-- The configuration-error message differs from every convert HTTP error
message of the generic form. -/
theorem convertConfigMessage_ne_convertGeneric (rest : String) :
    convertConfigMessage ≠ "Convert API error: " ++ rest := by
  intro h
  have h2 := congrArg (fun s => s.data.take 19) h
  simp only [String.data_append] at h2
  rw [List.take_left' (by decide)] at h2
  exact absurd h2 (by decide)

/-- The configuration-error message differs from every upload HTTP error
message of the generic form. -/
theorem convertConfigMessage_ne_uploadGeneric (rest : String) :
    convertConfigMessage ≠ "API error: " ++ rest := by
  intro h
  have h2 := congrArg (fun s => s.data.take 11) h
  simp only [String.data_append] at h2
  rw [List.take_left' (by decide)] at h2
  exact absurd h2 (by decide)

/-- C2.  Whenever the upload response is 2xx with a parseable body whose
`url` field is a non-empty string, and the convert configuration values are
non-empty, `handleSubmit` issues exactly one Convert request, carrying
`image_url` equal to that url, the five fixed metadata fields, and an
`Authorization: Bearer <token>` header. -/
theorem handleSubmit_issues_one_convert_call (cfg : ConvertConfig)
    (uploadResp convertResp : HttpResponse) (data : JsonVal) (url : String)
    (hok : uploadResp.ok = true) (hbody : uploadResp.body = some data)
    (hurl : jsGet data "url" = some (.str url)) (hne : url ≠ "")
    (hcu : cfg.convertApiUrl ≠ "") (hct : cfg.convertApiToken ≠ "") :
    (handleSubmitAfterUpload cfg uploadResp convertResp).convertCalls =
      [{ url := cfg.convertApiUrl,
         formData := [("image_url", url), ("entityType", cfg.entityType),
           ("entityId", cfg.entityId), ("class_id", cfg.classId),
           ("school_id", cfg.schoolId), ("academic_year", cfg.academicYear)],
         authorization := "Bearer " ++ cfg.convertApiToken }] := by
  cases data with
  | null => simp [jsGet] at hurl
  | bool b => simp [jsGet] at hurl
  | num n => simp [jsGet] at hurl
  | str t => simp [jsGet] at hurl
  | arr xs => simp [jsGet] at hurl
  | obj fields =>
    simp only [handleSubmitAfterUpload, hok, hbody, Bool.not_true,
      Bool.false_eq_true, if_false, hurl, truthy, jsToString, submitConvertImage,
      buildConvertRequest]
    have h1 : (url != "") = true := by simp [hne]
    have h2 : (cfg.convertApiUrl == "") = false := by
      simp [hcu]
    have h3 : (cfg.convertApiToken == "") = false := by
      simp [hct]
    rw [h1]
    simp only [h2, h3, Bool.or_self, Bool.false_or, if_true, if_false]
    rcases hco : convertResp.ok with _ | _ <;>
      rcases hcb : convertResp.body with _ | b <;>
        simp [hco, hcb]

/-- C2 witness: concrete configuration and responses; the upload body url is
forwarded as `image_url` together with the metadata fields and bearer
header. -/
theorem handleSubmit_issues_one_convert_call_witness :
    (handleSubmitAfterUpload
        { convertApiUrl := "http://c/convert", convertApiToken := "tok",
          entityType := "dkn_report", entityId := "0", classId := "132",
          schoolId := "215", academicYear := "2025-2026" }
        { ok := true, status := 200, statusText := "OK",
          body := some (.obj [("status", .str "success"),
            ("filename", .str "a.png"), ("url", .str "http://x/a.png")]) }
        { ok := true, status := 200, statusText := "OK",
          body := some (.obj []) }).convertCalls =
      [{ url := "http://c/convert",
         formData := [("image_url", "http://x/a.png"),
           ("entityType", "dkn_report"), ("entityId", "0"),
           ("class_id", "132"), ("school_id", "215"),
           ("academic_year", "2025-2026")],
         authorization := "Bearer tok" }] :=
  handleSubmit_issues_one_convert_call _ _ _
    (.obj [("status", .str "success"), ("filename", .str "a.png"),
      ("url", .str "http://x/a.png")])
    "http://x/a.png" rfl rfl rfl (by decide) (by decide) (by decide)

/-- C6.  When the upload response is 2xx and its parseable body (any value
other than JSON `null`, on which property access would throw) has no `url`
field or an empty-string one, the submit terminates successfully: the upload
result is recorded, no Convert request is issued, and no error is set. -/
theorem handleSubmit_done_without_url (cfg : ConvertConfig)
    (uploadResp convertResp : HttpResponse) (data : JsonVal)
    (hok : uploadResp.ok = true) (hbody : uploadResp.body = some data)
    (hnn : isNullJson data = false)
    (hurl : jsGet data "url" = none ∨ jsGet data "url" = some (.str "")) :
    handleSubmitAfterUpload cfg uploadResp convertResp =
      { apiResponse := some data, convertResponse := none, error := none,
        convertCalls := [] } := by
  cases data with
  | null => simp [isNullJson] at hnn
  | bool b =>
    simp only [handleSubmitAfterUpload, hok, hbody]
    simp [jsGet]
  | num n =>
    simp only [handleSubmitAfterUpload, hok, hbody]
    simp [jsGet]
  | str t =>
    simp only [handleSubmitAfterUpload, hok, hbody]
    simp [jsGet]
  | arr xs =>
    simp only [handleSubmitAfterUpload, hok, hbody]
    simp [jsGet]
  | obj fields =>
    rcases hurl with h | h
    · simp [handleSubmitAfterUpload, hok, hbody, h]
    · simp [handleSubmitAfterUpload, hok, hbody, h, truthy]

/-- C6 witness: a successful upload body without a `url` field ends in the
done state with no convert call. -/
theorem handleSubmit_done_without_url_witness :
    handleSubmitAfterUpload
        { convertApiUrl := "http://c/convert", convertApiToken := "tok",
          entityType := "dkn_report", entityId := "0", classId := "132",
          schoolId := "215", academicYear := "2025-2026" }
        { ok := true, status := 200, statusText := "OK",
          body := some (.obj [("status", .str "success"),
            ("filename", .str "a.png")]) }
        { ok := true, status := 200, statusText := "OK", body := some (.obj []) } =
      { apiResponse := some (.obj [("status", .str "success"),
          ("filename", .str "a.png")]),
        convertResponse := none, error := none, convertCalls := [] } :=
  handleSubmit_done_without_url _ _ _
    (.obj [("status", .str "success"), ("filename", .str "a.png")])
    rfl rfl (by decide) (Or.inl rfl)

/-- C9 counterexample.  With the Convert endpoint URL missing from the
environment but a token present, the claim says the orchestrator fails before
issuing the Convert request; instead the derivation substitutes the built-in
default URL and the request is issued (here succeeding with no error). -/
theorem convert_missing_url_still_calls_counterexample :
    (handleSubmitAfterUpload
        (deriveConvertConfig
          { convertApiUrl := none, convertApiToken := some "secret",
            entityType := none, entityId := none, classId := none,
            schoolId := none, academicYear := none })
        { ok := true, status := 200, statusText := "OK",
          body := some (.obj [("status", .str "success"),
            ("filename", .str "a.png"), ("url", .str "http://x/a.png")]) }
        { ok := true, status := 200, statusText := "OK",
          body := some (.obj []) }).convertCalls.length = 1 ∧
    (handleSubmitAfterUpload
        (deriveConvertConfig
          { convertApiUrl := none, convertApiToken := some "secret",
            entityType := none, entityId := none, classId := none,
            schoolId := none, academicYear := none })
        { ok := true, status := 200, statusText := "OK",
          body := some (.obj [("status", .str "success"),
            ("filename", .str "a.png"), ("url", .str "http://x/a.png")]) }
        { ok := true, status := 200, statusText := "OK",
          body := some (.obj []) }).error = none ∧
    (handleSubmitAfterUpload
        (deriveConvertConfig
          { convertApiUrl := none, convertApiToken := some "secret",
            entityType := none, entityId := none, classId := none,
            schoolId := none, academicYear := none })
        { ok := true, status := 200, statusText := "OK",
          body := some (.obj [("status", .str "success"),
            ("filename", .str "a.png"), ("url", .str "http://x/a.png")]) }
        { ok := true, status := 200, statusText := "OK",
          body := some (.obj []) }).convertCalls.map ConvertRequest.url =
      ["http://localhost:3000/api/v1/growth-card/convert-image"] :=
  ⟨rfl, rfl, rfl⟩

/-- C9 (amended).  When the derived bearer token is empty (the token
environment variable unset or empty), a submit whose upload succeeded with a
truthy `url` fails before issuing any Convert request, with the fixed
configuration-error message; that message is distinct from the generic
upload/convert HTTP error messages.  A missing Convert endpoint URL does not
trigger this guard because a non-empty default URL is substituted. -/
theorem convert_missing_token_fails_fast (env : ConvertEnv)
    (uploadResp convertResp : HttpResponse) (data u : JsonVal)
    (htok : jsOrDefault env.convertApiToken "" = "")
    (hok : uploadResp.ok = true) (hbody : uploadResp.body = some data)
    (hurl : jsGet data "url" = some u) (htr : truthy u = true) :
    (handleSubmitAfterUpload (deriveConvertConfig env) uploadResp
        convertResp).convertCalls = [] ∧
    (handleSubmitAfterUpload (deriveConvertConfig env) uploadResp
        convertResp).error = some (.msg convertConfigMessage) ∧
    (∀ rest : String, convertConfigMessage ≠ "Convert API error: " ++ rest) ∧
    (∀ rest : String, convertConfigMessage ≠ "API error: " ++ rest) := by
  have hcfg : (deriveConvertConfig env).convertApiToken = "" := htok
  cases data with
  | null => simp [jsGet] at hurl
  | bool b => simp [jsGet] at hurl
  | num n => simp [jsGet] at hurl
  | str t => simp [jsGet] at hurl
  | arr xs => simp [jsGet] at hurl
  | obj fields =>
    refine ⟨?_, ?_, convertConfigMessage_ne_convertGeneric,
      convertConfigMessage_ne_uploadGeneric⟩ <;>
    · simp only [handleSubmitAfterUpload, hok, hbody, hurl, htr,
        submitConvertImage, hcfg]
      simp

/-- C9 witness for `convert_missing_token_fails_fast`: the token variable is
unset, the upload succeeded with a url, and the submit ends with the
configuration error and no convert call. -/
theorem convert_missing_token_fails_fast_witness :
    (handleSubmitAfterUpload
        (deriveConvertConfig
          { convertApiUrl := some "http://c/convert", convertApiToken := none,
            entityType := none, entityId := none, classId := none,
            schoolId := none, academicYear := none })
        { ok := true, status := 200, statusText := "OK",
          body := some (.obj [("url", .str "http://x/a.png")]) }
        { ok := true, status := 200, statusText := "OK",
          body := some (.obj []) }).convertCalls = [] ∧
    (handleSubmitAfterUpload
        (deriveConvertConfig
          { convertApiUrl := some "http://c/convert", convertApiToken := none,
            entityType := none, entityId := none, classId := none,
            schoolId := none, academicYear := none })
        { ok := true, status := 200, statusText := "OK",
          body := some (.obj [("url", .str "http://x/a.png")]) }
        { ok := true, status := 200, statusText := "OK",
          body := some (.obj []) }).error = some (.msg convertConfigMessage) := by
  have h := convert_missing_token_fails_fast
    { convertApiUrl := some "http://c/convert", convertApiToken := none,
      entityType := none, entityId := none, classId := none,
      schoolId := none, academicYear := none }
    { ok := true, status := 200, statusText := "OK",
      body := some (.obj [("url", .str "http://x/a.png")]) }
    { ok := true, status := 200, statusText := "OK", body := some (.obj []) }
    (.obj [("url", .str "http://x/a.png")]) (.str "http://x/a.png")
    rfl rfl rfl rfl (by decide)
  exact ⟨h.1, h.2.1⟩

/-
Transform Engine: `processImageForUpload` (source lines 191-270) and the
`appliedFilter` memo (source lines 146-149).  JavaScript numbers are
modelled as rationals; the canvas is recorded as the assignments and draw
calls the code performs on it.
-/

/-- The decoded preview image: natural resolution and displayed size. -/
structure ImgElement where
  naturalWidth : ℚ
  naturalHeight : ℚ
  width : ℚ
  height : ℚ

/-- A completed crop in displayed-pixel units. -/
structure PixelCrop where
  x : ℚ
  y : ℚ
  width : ℚ
  height : ℚ

/-- The editor state consumed by the render: completed crop and the three
adjustment values. -/
structure EditorState where
  completedCrop : Option PixelCrop
  grayscale : Int
  contrast : Int
  rotation : Int

/-- Embedding of `appliedFilter` (source lines 146-149):
`grayscale(<clamped>%) contrast(<contrast>%)` with the grayscale value
clamped via `Math.max(0, Math.min(100, grayscale))`. -/
def appliedFilter (grayscale contrast : Int) : String :=
  "grayscale(" ++ toString (max 0 (min 100 grayscale)) ++ "%) contrast(" ++
    toString contrast ++ "%)"

/-- Modelled from the spec: clamping into [0,100]. -/
def clampSpec (g : Int) : Int :=
  if g < 0 then 0 else if 100 < g then 100 else g

/-- Embedding of the rotation normalization
`((rotation % 360) + 360) % 360` (source line 215); the JavaScript `%` is the
truncated remainder `Int.tmod`. -/
def normalizedRotation (rotation : Int) : Int :=
  ((rotation.tmod 360) + 360).tmod 360

/-- Embedding of the active-crop selection (source lines 204-212): the
completed crop when it has positive width and height, else the full
displayed bounds. -/
def activeCropOf (img : ImgElement) (completedCrop : Option PixelCrop) :
    PixelCrop :=
  match completedCrop with
  | some c =>
    if 0 < c.width ∧ 0 < c.height then c
    else { x := 0, y := 0, width := img.width, height := img.height }
  | none => { x := 0, y := 0, width := img.width, height := img.height }

/-- The canvas as `processImageForUpload` configures it: dimensions, filter,
rotation applied about the centre, translation, and the draw-call rectangle
arguments (source lines 214-252). -/
structure CanvasRender where
  width : ℚ
  height : ℚ
  filter : String
  rotationDegrees : Int
  translateX : ℚ
  translateY : ℚ
  srcX : ℚ
  srcY : ℚ
  srcW : ℚ
  srcH : ℚ
  destX : ℚ
  destY : ℚ
  destW : ℚ
  destH : ℚ

/-- Embedding of the canvas set-up and draw of `processImageForUpload`
(source lines 201-252). -/
def renderCanvas (img : ImgElement) (st : EditorState) : CanvasRender :=
  let scaleX := img.naturalWidth / img.width
  let scaleY := img.naturalHeight / img.height
  let activeCrop := activeCropOf img st.completedCrop
  let normalized := normalizedRotation st.rotation
  let isRotated90or270 := normalized == 90 || normalized == 270
  let sourceWidth := activeCrop.width * scaleX
  let sourceHeight := activeCrop.height * scaleY
  let canvasWidth := if isRotated90or270 then sourceHeight else sourceWidth
  let canvasHeight := if isRotated90or270 then sourceWidth else sourceHeight
  { width := canvasWidth,
    height := canvasHeight,
    filter := appliedFilter st.grayscale st.contrast,
    rotationDegrees := normalized,
    translateX := canvasWidth / 2,
    translateY := canvasHeight / 2,
    srcX := activeCrop.x * scaleX,
    srcY := activeCrop.y * scaleY,
    srcW := sourceWidth,
    srcH := sourceHeight,
    destX := -(sourceWidth / 2),
    destY := -(sourceHeight / 2),
    destW := sourceWidth,
    destH := sourceHeight }

/-- The selected file: name and MIME type (empty string for an unset type,
the falsy value the source tests). -/
structure FileInfo where
  name : String
  type : String

/-- JavaScript `s || d` on strings. -/
def jsStrOr (s d : String) : String :=
  if s == "" then d else s

/-- Result of `processImageForUpload`: either the untransformed selected
file, or a freshly rendered file carrying the canvas output. -/
inductive ProcessedUpload where
  | original (f : FileInfo)
  | rendered (canvas : CanvasRender) (name : String) (mimeType : String)

/-- Embedding of `processImageForUpload` (source lines 191-270): no selected
image throws; a missing decoded image element returns the selected file
unchanged; otherwise the canvas render runs (failing when no 2d context is
available) and is serialized under the original name with the original MIME
type, falling back to `image/jpeg`. -/
def processImageForUpload (ctxSupported : Bool)
    (selectedImage : Option FileInfo) (imgRef : Option ImgElement)
    (st : EditorState) : Except String ProcessedUpload :=
  match selectedImage with
  | none => .error "No image selected"
  | some file =>
    match imgRef with
    | none => .ok (.original file)
    | some img =>
      if ctxSupported then
        .ok (.rendered (renderCanvas img st) file.name
          (jsStrOr file.type "image/jpeg"))
      else .error "Canvas is not supported in this browser"

/-- Modelled from the spec: the natural width of the cropped region. -/
def croppedNaturalWidth (img : ImgElement)
    (completedCrop : Option PixelCrop) : ℚ :=
  (activeCropOf img completedCrop).width * (img.naturalWidth / img.width)

/-- Modelled from the spec: the natural height of the cropped region. -/
def croppedNaturalHeight (img : ImgElement)
    (completedCrop : Option PixelCrop) : ℚ :=
  (activeCropOf img completedCrop).height * (img.naturalHeight / img.height)

/-- The truncated remainder by a positive divisor exceeds its negation. -/
theorem neg_lt_tmod_of_pos (a : Int) {b : Int} (hb : 0 < b) :
    -b < a.tmod b := by
  rcases le_or_lt 0 a with ha | ha
  · have h := Int.tmod_nonneg b ha
    omega
  · have h1 : (-a).tmod b < b := Int.tmod_lt_of_pos (-a) hb
    have h2 : (-a).tmod b = -(a.tmod b) := by
      rw [Int.tmod_def, Int.tmod_def, Int.neg_tdiv]
      ring
    omega

/-- The normalization lands in [0, 360). -/
theorem normalizedRotation_bounds (r : Int) :
    0 ≤ normalizedRotation r ∧ normalizedRotation r < 360 := by
  unfold normalizedRotation
  have h1 : r.tmod 360 < 360 := Int.tmod_lt_of_pos r (by norm_num)
  have h2 : -360 < r.tmod 360 := neg_lt_tmod_of_pos r (by norm_num)
  have h3 : (0 : Int) ≤ r.tmod 360 + 360 := by omega
  exact ⟨Int.tmod_nonneg 360 h3, Int.tmod_lt_of_pos _ (by norm_num)⟩

/-- C1.  The render normalizes any integer rotation into [0, 360) via
`((rotation % 360) + 360) % 360`; when the normalized rotation is 90 or 270
the canvas swaps the natural dimensions of the cropped region, and for every
other normalized value (0 and 180 included) it matches them directly. -/
theorem renderCanvas_dimensions (img : ImgElement) (st : EditorState) :
    (0 ≤ normalizedRotation st.rotation ∧
      normalizedRotation st.rotation < 360) ∧
    ((normalizedRotation st.rotation = 90 ∨
        normalizedRotation st.rotation = 270) →
      (renderCanvas img st).width = croppedNaturalHeight img st.completedCrop ∧
      (renderCanvas img st).height =
        croppedNaturalWidth img st.completedCrop) ∧
    (normalizedRotation st.rotation ≠ 90 →
      normalizedRotation st.rotation ≠ 270 →
      (renderCanvas img st).width = croppedNaturalWidth img st.completedCrop ∧
      (renderCanvas img st).height =
        croppedNaturalHeight img st.completedCrop) := by
  refine ⟨normalizedRotation_bounds st.rotation, ?_, ?_⟩
  · intro h
    rcases h with h | h <;>
      simp [renderCanvas, croppedNaturalWidth, croppedNaturalHeight, h]
  · intro h1 h2
    simp [renderCanvas, croppedNaturalWidth, croppedNaturalHeight, h1, h2]

/-- C1 witness for `renderCanvas_dimensions`: rotation -270 normalizes to 90
and swaps the dimensions; rotation 180 keeps them. -/
theorem renderCanvas_dimensions_witness :
    ((renderCanvas
        { naturalWidth := 800, naturalHeight := 600, width := 400,
          height := 300 }
        { completedCrop := some { x := 10, y := 20, width := 100, height := 50 },
          grayscale := 30, contrast := 120, rotation := -270 }).width =
      croppedNaturalHeight
        { naturalWidth := 800, naturalHeight := 600, width := 400,
          height := 300 }
        (some { x := 10, y := 20, width := 100, height := 50 })) ∧
    ((renderCanvas
        { naturalWidth := 800, naturalHeight := 600, width := 400,
          height := 300 }
        { completedCrop := some { x := 10, y := 20, width := 100, height := 50 },
          grayscale := 30, contrast := 120, rotation := 180 }).width =
      croppedNaturalWidth
        { naturalWidth := 800, naturalHeight := 600, width := 400,
          height := 300 }
        (some { x := 10, y := 20, width := 100, height := 50 })) := by
  constructor
  · exact ((renderCanvas_dimensions _ _).2.1 (Or.inl (by decide))).1
  · exact ((renderCanvas_dimensions _ _).2.2 (by decide) (by decide)).1

/-- C5.  The rasterization context receives exactly the composite filter
string `grayscale(<g>%) contrast(<c>%)` where `g` is the grayscale input
clamped into [0,100] (so -10 clamps to 0 and 250 to 100) and `c` is the
contrast input unmodified. -/
theorem renderCanvas_filter (img : ImgElement) (st : EditorState)
    (g c : Int) :
    (renderCanvas img st).filter = appliedFilter st.grayscale st.contrast ∧
    appliedFilter g c =
      "grayscale(" ++ toString (clampSpec g) ++ "%) contrast(" ++
        toString c ++ "%)" ∧
    0 ≤ clampSpec g ∧ clampSpec g ≤ 100 ∧
    clampSpec (-10) = 0 ∧ clampSpec 250 = 100 := by
  have h : max 0 (min 100 g) = clampSpec g := by
    simp only [clampSpec, Int.max_def, Int.min_def]
    split_ifs <;> omega
  refine ⟨rfl, ?_, ?_, ?_, by decide, by decide⟩
  · simp [appliedFilter, h]
  · simp only [clampSpec]
    split_ifs <;> omega
  · simp only [clampSpec]
    split_ifs <;> omega

/-- C10.  When an image is selected but the decoded image element is
unavailable at submit time, `processImageForUpload` returns the selected
file unchanged, with no transform applied and no error, whether or not a
canvas context would have been available. -/
theorem processImageForUpload_returns_original (ctxSupported : Bool)
    (file : FileInfo) (st : EditorState) :
    processImageForUpload ctxSupported (some file) none st =
      .ok (.original file) := rfl

/-
Session state and `handleReset` (source lines 332-342) with
`resetEditorState` (source lines 151-157) and the initial `useState` values
(source lines 104-117).
-/

/-- The percent-unit crop selection, `buildDefaultCrop` being its default
(source lines 95-101). -/
structure CropSel where
  unit : String
  x : ℚ
  y : ℚ
  width : ℚ
  height : ℚ

/-- Embedding of `buildDefaultCrop` (source lines 95-101). -/
def buildDefaultCrop : CropSel :=
  { unit := "%", width := 80, height := 80, x := 10, y := 10 }

/-- The component state: every `useState` value, the `imageRef` ref holding
the decoded preview element (source line 111, written only by the `onLoad`
handler at line 422 and read by `processImageForUpload` at line 196), and
the file-input value cleared by `handleReset`. -/
structure SessionState where
  selectedImage : Option FileInfo
  previewUrl : Option String
  isSubmitting : Bool
  apiResponse : Option JsonVal
  convertResponse : Option JsonVal
  error : Option SessionError
  crop : CropSel
  completedCrop : Option PixelCrop
  grayscale : Int
  contrast : Int
  rotation : Int
  imageRef : Option ImgElement
  fileInputValue : String

/-- The state at first load (source lines 104-117): both refs start null. -/
def initialSessionState : SessionState :=
  { selectedImage := none, previewUrl := none, isSubmitting := false,
    apiResponse := none, convertResponse := none, error := none,
    crop := buildDefaultCrop, completedCrop := none, grayscale := 0,
    contrast := 100, rotation := 0, imageRef := none, fileInputValue := "" }

/-- Embedding of `resetEditorState` (source lines 151-157). -/
def resetEditorState (s : SessionState) : SessionState :=
  { s with
    crop := buildDefaultCrop, completedCrop := none, grayscale := 0,
    contrast := 100, rotation := 0 }

/-- Embedding of `handleReset` (source lines 332-342): clears the selection,
preview, both API responses and the error, resets the editor state, and
empties the file input.  It touches neither `isSubmitting` nor
`imageRef.current`. -/
def handleReset (s : SessionState) : SessionState :=
  let cleared := { s with
    selectedImage := none, previewUrl := none,
    apiResponse := none, convertResponse := none, error := none }
  let afterEditor := resetEditorState cleared
  { afterEditor with fileInputValue := "" }

/-- C8 counterexample.  Invoked while a submission is in flight
(`isSubmitting = true`, possible because the Reset button stays enabled),
`handleReset` does not return the state to first-load equivalence: the
in-flight flag survives. -/
theorem handleReset_midflight_counterexample :
    handleReset { initialSessionState with isSubmitting := true } ≠
      initialSessionState := by
  intro h
  have h2 : (handleReset
      { initialSessionState with isSubmitting := true }).isSubmitting =
      initialSessionState.isSubmitting := by rw [h]
  simp [handleReset, resetEditorState, initialSessionState] at h2

/-- C8 (amended).  From any state, `handleReset` clears every listed session
field — selected image, preview, crop back to the default, grayscale 0,
contrast 100, rotation 0, upload result, convert result, error, file-input
value — but it writes neither the in-flight submission flag nor the decoded
preview ref: the result is the first-load state except that `isSubmitting`
and `imageRef` are preserved, so full first-load equivalence holds exactly
when no submission is in flight and no decoded image element is held (a
stale element is observable: `processImageForUpload` reads it at line
196). -/
theorem handleReset_clears_session (s : SessionState) :
    handleReset s =
      { initialSessionState with
        isSubmitting := s.isSubmitting, imageRef := s.imageRef } := by
  rfl
